import Mathlib

/-!
Verification development for the pulseforge `Ceq` compilation module
(`src/pulserver/_core/_ceq.py`).

Modelling conventions.

* The byte stream produced by `struct.pack` / `ndarray.tobytes` is modelled
  at the granularity of wire atoms: a 32-bit integer, a 16-bit integer or a
  32-bit IEEE-754 single.  Each `struct.pack(endian + code, v)` call becomes
  one `WireAtom`; an array `tobytes()` becomes one atom per element, in
  storage (row-major) order.  The byte length of an encoding is recovered by
  `byteLength`.  The endianness selector only permutes bytes inside a single
  atom, so it is invisible at this granularity and is not threaded through.
* Numeric values carried by the `Ceq` side (durations, amplitudes, loop-table
  entries) are modelled as rationals: the Python code only moves them around,
  compares them, sums them and takes maxima, and all claims under study are
  about those operations, not about float32 rounding.
* The `SequenceParams` wire format is modelled at the byte level
  (`List Nat`, one entry per byte, values < 256): its claims are about the
  exact fixed layout, the `-1` sentinel and the buffer length.  Float fields
  are kept as their 32-bit patterns; the sentinel `-1.0` is the unique
  pattern `0xBF800000`.
* Python exceptions (`KeyError`, `struct.error`, numpy's zero-size reduction
  `ValueError`) are modelled with the `Err` type and `Except`.
* The helper module `_autoseg` imported by `_ceq.py` is not part of the
  supplied source; every theorem touching segment construction is therefore
  universally quantified over an arbitrary implementation `Autoseg` of its
  three functions.
-/

/-- Python exceptions surfaced by the modelled code paths. -/
inductive Err where
  | keyError (key : String)
  | structError
  | valueError (msg : String)
  deriving DecidableEq, Repr

/-- One atom of the serialized stream: `struct.pack` with code `i` (32-bit
int), `h` (16-bit int), or `f` (32-bit float).  Floats on the `Ceq` side are
carried as rationals. -/
inductive WireAtom where
  | i32 (v : Int)
  | i16 (v : Int)
  | f32 (v : ℚ)
  deriving DecidableEq, Repr

/-- Number of bytes a wire atom occupies in the packed stream. -/
def WireAtom.len : WireAtom → Nat
  | .i32 _ => 4
  | .i16 _ => 2
  | .f32 _ => 4

/-- Total byte length of a packed atom stream. -/
def byteLength (l : List WireAtom) : Nat :=
  (l.map WireAtom.len).sum

/-- `PulseqShapeArbitrary`: sample count, raster, magnitude samples, optional
phase samples (source lines 20–46). -/
structure PulseqShapeArbitrary where
  n_samples : Int
  raster : ℚ
  magnitude : List ℚ
  phase : Option (List ℚ)
  deriving DecidableEq, Repr

/-- `PulseqShapeArbitrary.to_bytes`: n_samples (int32), raster (float32),
magnitude array, then the phase array when present. -/
def PulseqShapeArbitrary.to_bytes (s : PulseqShapeArbitrary) : List WireAtom :=
  match s.phase with
  | some ph =>
      [WireAtom.i32 s.n_samples] ++ [WireAtom.f32 s.raster]
        ++ s.magnitude.map WireAtom.f32 ++ ph.map WireAtom.f32
  | none =>
      [WireAtom.i32 s.n_samples] ++ [WireAtom.f32 s.raster]
        ++ s.magnitude.map WireAtom.f32

/-- `PulseqShapeTrap`: amplitude, rise, flat and fall time (source 49–62). -/
structure PulseqShapeTrap where
  amplitude : ℚ
  rise_time : ℚ
  flat_time : ℚ
  fall_time : ℚ
  deriving DecidableEq, Repr

/-- `PulseqShapeTrap.to_bytes`: the four float32 fields in order. -/
def PulseqShapeTrap.to_bytes (s : PulseqShapeTrap) : List WireAtom :=
  [WireAtom.f32 s.amplitude, WireAtom.f32 s.rise_time,
   WireAtom.f32 s.flat_time, WireAtom.f32 s.fall_time]

/-- `PulseqRF` (source 65–92). -/
structure PulseqRF where
  type : Int
  wav : PulseqShapeArbitrary
  duration : ℚ
  delay : ℚ
  deriving DecidableEq, Repr

/-- `PulseqRF.to_bytes`: type (int16), waveform shape, duration, delay. -/
def PulseqRF.to_bytes (r : PulseqRF) : List WireAtom :=
  [WireAtom.i16 r.type] ++ r.wav.to_bytes
    ++ [WireAtom.f32 r.duration] ++ [WireAtom.f32 r.delay]

/-- Payload of a gradient event: trapezoid or arbitrary shape. -/
inductive GradShape where
  | trap (s : PulseqShapeTrap)
  | arb (s : PulseqShapeArbitrary)
  deriving DecidableEq, Repr

/-- Dispatch of `self.shape.to_bytes(endian)` over the two shape kinds. -/
def GradShape.to_bytes : GradShape → List WireAtom
  | .trap s => s.to_bytes
  | .arb s => s.to_bytes

/-- `PulseqGrad` (source 95–121). -/
structure PulseqGrad where
  type : Int
  delay : ℚ
  shape : GradShape
  deriving DecidableEq, Repr

/-- `PulseqGrad.to_bytes`: type (int16), delay (float32), shape payload. -/
def PulseqGrad.to_bytes (g : PulseqGrad) : List WireAtom :=
  [WireAtom.i16 g.type] ++ [WireAtom.f32 g.delay] ++ g.shape.to_bytes

/-- `PulseqADC` (source 124–146). -/
structure PulseqADC where
  type : Int
  num_samples : Int
  dwell : ℚ
  delay : ℚ
  deriving DecidableEq, Repr

/-- `PulseqADC.to_bytes`: type (int16), num_samples (int32), dwell, delay. -/
def PulseqADC.to_bytes (a : PulseqADC) : List WireAtom :=
  [WireAtom.i16 a.type, WireAtom.i32 a.num_samples,
   WireAtom.f32 a.dwell, WireAtom.f32 a.delay]

/-- `PulseqTrig` (source 149–171). -/
structure PulseqTrig where
  type : Int
  channel : Int
  delay : ℚ
  duration : ℚ
  deriving DecidableEq, Repr

/-- `PulseqTrig.to_bytes`: type (int16), channel (int32), delay, duration. -/
def PulseqTrig.to_bytes (t : PulseqTrig) : List WireAtom :=
  [WireAtom.i16 t.type, WireAtom.i32 t.channel,
   WireAtom.f32 t.delay, WireAtom.f32 t.duration]

/-- `CHANNEL_ENUM` (source line 16). -/
def CHANNEL_ENUM : List (String × Int) :=
  [("osc0", 0), ("osc1", 1), ("ext1", 2)]

/-- `PulseqTrig.from_struct` (source 164–171): `CHANNEL_ENUM[data.channel]`
raises `KeyError` on a channel name absent from the dictionary. -/
def PulseqTrig.from_struct (channel : String) (delay duration : ℚ) :
    Except Err PulseqTrig :=
  match (CHANNEL_ENUM.lookup channel) with
  | some v => .ok { type := 1, channel := v, delay := delay, duration := duration }
  | none => .error (.keyError channel)

/-- `PulseqBlock` (source 174–229): id, toolkit-computed duration, and the
six optional sub-events.  The duration is produced by the external
`pp.calc_duration` call and is therefore an injected value here. -/
structure PulseqBlock where
  ID : Int
  duration : ℚ
  rf : Option PulseqRF
  gx : Option PulseqGrad
  gy : Option PulseqGrad
  gz : Option PulseqGrad
  adc : Option PulseqADC
  trig : Option PulseqTrig
  deriving DecidableEq, Repr

/-- One optional sub-event section of a block record: the full encoded
payload when present, a bare `int16` zero tag when absent. -/
def optSection {α : Type} (enc : α → List WireAtom) : Option α → List WireAtom
  | some e => enc e
  | none => [WireAtom.i16 0]

/-- `PulseqBlock.to_bytes` (source 199–229): id (int32) and duration
(float32), then the RF section, the three gradient sections via the
`for grad in [gx, gy, gz]` loop, the ADC section and the trigger section. -/
def PulseqBlock.to_bytes (b : PulseqBlock) : List WireAtom :=
  let bytes_data := [WireAtom.i32 b.ID] ++ [WireAtom.f32 b.duration]
  let bytes_data := bytes_data ++ optSection PulseqRF.to_bytes b.rf
  let bytes_data := [b.gx, b.gy, b.gz].foldl
    (fun acc g => acc ++ optSection PulseqGrad.to_bytes g) bytes_data
  let bytes_data := bytes_data ++ optSection PulseqADC.to_bytes b.adc
  let bytes_data := bytes_data ++ optSection PulseqTrig.to_bytes b.trig
  bytes_data

/-- `Segment` (source 232–245): id, member count, member block ids. -/
structure Segment where
  segment_id : Int
  n_blocks_in_segment : Int
  block_ids : List Int
  deriving DecidableEq, Repr

/-- `Segment.__init__`: the member count is the length of the id list. -/
def Segment.make (segment_id : Int) (block_ids : List Int) : Segment :=
  { segment_id := segment_id,
    n_blocks_in_segment := (block_ids.length : Int),
    block_ids := block_ids }

/-- `Segment.to_bytes` (source 240–245): id (int16), count (int16), then the
member ids as int16. -/
def Segment.to_bytes (s : Segment) : List WireAtom :=
  [WireAtom.i16 s.segment_id] ++ [WireAtom.i16 s.n_blocks_in_segment]
    ++ s.block_ids.map WireAtom.i16

/-- Python `int()` truncation toward zero, as applied by `ndarray.astype(int)`
to the float-valued loop-table columns. -/
def pyInt (q : ℚ) : Int :=
  if 0 ≤ q then ⌊q⌋ else ⌈q⌉

/-- Column `j` of the loop table (`loop[:, j]`), one value per row. -/
def colAt (loop : List (List ℚ)) (j : Nat) : List ℚ :=
  loop.map (fun r => r.getD j 0)

/-- Last column of the loop table (`loop[:, -1]`). -/
def lastCol (loop : List (List ℚ)) : List ℚ :=
  loop.map (fun r => r.getD (r.length - 1) 0)

/-- Second-to-last column of the loop table (`loop[:, -2]`). -/
def penultCol (loop : List (List ℚ)) : List ℚ :=
  loop.map (fun r => r.getD (r.length - 2) 0)

/-- The three operations of the `_autoseg` helper module.  That module is
imported by `_ceq.py` but its body is not part of the supplied source, so
every theorem about segment construction quantifies over an arbitrary
implementation of this interface. -/
structure Autoseg where
  find_segment_definitions : List Int → List (List Int)
  split_rotated_segments : List (List Int) → List (List Int)
  find_segments : List Int → List Int → List Nat

/-- `_build_segments` lines 437–438: `hasrot = loop[:, -1].astype(int)` and
`parent_block_id = loop[:, 1].astype(int) * hasrot`, an element-wise
product. -/
def maskedParentBlockId (loop : List (List ℚ)) : List Int :=
  List.zipWith (fun a b => pyInt a * pyInt b) (colAt loop 1) (lastCol loop)

/-- Python slice `l[a:b]` for non-negative bounds. -/
def pySlice (l : List Int) (a b : Nat) : List Int :=
  (l.drop a).take (b - a)

/-- `_build_segments` lines 440–463: default the section edges to `[0]`,
pair consecutive edges, collect `split_rotated_segments ∘
find_segment_definitions` over each bounded section, then over the final
unbounded section. -/
def segDefsFromSeries (A : Autoseg) (series : List Int)
    (sections_edges : List Nat) : List (List Int) :=
  let edges := if sections_edges.isEmpty then [0] else sections_edges
  let inner := (List.range (edges.length - 1)).foldl
    (fun acc n => acc ++ A.split_rotated_segments
      (A.find_segment_definitions
        (pySlice series (edges.getD n 0) (edges.getD (n + 1) 0)))) []
  inner ++ A.split_rotated_segments
    (A.find_segment_definitions (series.drop (edges.getLast?.getD 0)))

/-- `_build_segments` lines 466–468: start from `np.zeros(loop.shape[0])`
and, for each discovered definition `n`, write `n` at the indices returned
by `find_segments`. -/
def scatterSegIds (A : Autoseg) (series : List Int)
    (seg_definitions : List (List Int)) : List ℚ :=
  (List.range seg_definitions.length).foldl
    (fun col n =>
      (A.find_segments series (seg_definitions.getD n [])).foldl
        (fun c i => c.set i (n : ℚ)) col)
    (List.replicate series.length 0)

/-- `_build_segments` (source 436–477): returns the `Segment` list and the
loop table with its first column overwritten by the computed segment ids
(the `loop[:, 0] = segment_id` write, modelled functionally). -/
def build_segments (A : Autoseg) (loop : List (List ℚ))
    (sections_edges : List Nat) : List Segment × List (List ℚ) :=
  let parent_block_id := maskedParentBlockId loop
  let seg_definitions := segDefsFromSeries A parent_block_id sections_edges
  let segment_id := scatterSegIds A parent_block_id seg_definitions
  let segments := (List.range seg_definitions.length).map
    (fun n => Segment.make (Int.ofNat n) (seg_definitions.getD n []))
  (segments, List.zipWith (fun r v => r.set 0 v) loop segment_id)

/-- Python `max(...)` / `np.max(...)` over a possibly-empty collection: both
raise a `ValueError` on an empty input, with distinct messages. -/
def pyMax (l : List ℚ) (emptyMsg : String) : Except Err ℚ :=
  match l with
  | [] => .error (.valueError emptyMsg)
  | x :: xs => .ok (xs.foldl max x)

/-- `_find_b1_max` (source 480–487):
`np.max([max(abs(block.rf.wav.magnitude)) for block in parent_blocks if
block.rf is not None])`.  The inner built-in `max` raises on an empty
magnitude array; the outer `np.max` raises numpy's zero-size reduction
`ValueError` when no block carries an RF event. -/
def find_b1_max (parent_blocks : List PulseqBlock) : Except Err ℚ := do
  let peaks ← (parent_blocks.filterMap (fun b => b.rf)).mapM
    (fun r => pyMax (r.wav.magnitude.map (fun q => |q|))
      "max() arg is an empty sequence")
  pyMax peaks
    ("zero-size array to reduction operation maximum which has no identity")

/-- `SEGMENT_RINGDOWN_TIME = 116 * 1e-6` (source line 17). -/
def SEGMENT_RINGDOWN_TIME : ℚ :=
  116 / 1000000

/-- `(np.diff(segment_id) != 0).sum()`: the number of adjacent positions
holding different values. -/
def countBoundaries (segment_id : List ℚ) : Nat :=
  ((segment_id.zip segment_id.tail).filter (fun p => decide (p.1 ≠ p.2))).length

/-- `_calc_duration` (source 490–497): sum of the per-repetition durations
plus the ring-down constant once per segment boundary. -/
def calc_duration (segment_id block_duration : List ℚ) : ℚ :=
  block_duration.sum + SEGMENT_RINGDOWN_TIME * (countBoundaries segment_id : ℚ)

/-- The `Ceq` structure's stored fields (source 248–270). -/
structure Ceq where
  n_max : Int
  n_parent_blocks : Int
  n_segments : Int
  parent_blocks : List PulseqBlock
  segments : List Segment
  n_columns_in_loop_array : Int
  loop : List (List ℚ)
  max_b1 : ℚ
  duration : ℚ
  n_readouts : Int
  deriving DecidableEq, Repr

/-- `Ceq.__init__` (source 251–270): run `_build_segments` (which rewrites
the loop table's first column), record the counts, strip the trailing
`hasadc`/`hasrot` analysis columns (`loop[:, :-2]`), compute the peak RF
magnitude, the total duration from columns 0 and 9 of the trimmed table, and
the readout count from `loop[:, -2]` of the full table. -/
def Ceq.build (A : Autoseg) (parent_blocks : List PulseqBlock)
    (loop : List (List ℚ)) (sections_edges : List Nat) : Except Err Ceq := do
  let bs := build_segments A loop sections_edges
  let segments := bs.1
  let loop1 := bs.2
  let trimmed := loop1.map (fun r => r.take (r.length - 2))
  let max_b1 ← find_b1_max parent_blocks
  pure {
    n_max := (loop1.length : Int),
    n_parent_blocks := (parent_blocks.length : Int),
    n_segments := (segments.length : Int),
    parent_blocks := parent_blocks,
    segments := segments,
    n_columns_in_loop_array := ((loop1.headD []).length : Int) - 2,
    loop := trimmed,
    max_b1 := max_b1,
    duration := calc_duration (colAt trimmed 0) (colAt trimmed 9),
    n_readouts := pyInt (penultCol loop1).sum }

/-- `Ceq.to_bytes` (source 272–288): header, the two `for` loops appending
each parent block's and each segment's record, the trimmed-table column
count, the flattened table, and the trailer. -/
def Ceq.to_bytes (c : Ceq) : List WireAtom :=
  let bytes_data := [WireAtom.i32 c.n_max] ++ [WireAtom.i16 c.n_parent_blocks]
    ++ [WireAtom.i16 c.n_segments]
  let bytes_data := c.parent_blocks.foldl (fun acc b => acc ++ b.to_bytes) bytes_data
  let bytes_data := c.segments.foldl (fun acc s => acc ++ s.to_bytes) bytes_data
  let bytes_data := bytes_data ++ [WireAtom.i16 c.n_columns_in_loop_array]
  let bytes_data := bytes_data ++ (c.loop.map (fun r => r.map WireAtom.f32)).flatten
  let bytes_data := bytes_data ++ [WireAtom.f32 c.max_b1]
  let bytes_data := bytes_data ++ [WireAtom.f32 c.duration]
  let bytes_data := bytes_data ++ [WireAtom.i32 c.n_readouts]
  bytes_data

/-- A value produced by `struct.unpack`: a 16-bit integer field, or a 32-bit
float field carried as its IEEE-754 bit pattern. -/
inductive WireVal where
  | wI (i : Int)
  | wF (p : Nat)
  deriving DecidableEq, Repr

/-- The unique IEEE-754 binary32 bit pattern of `-1.0`. -/
def patNeg1 : Nat := 0xBF800000

/-- Read a 32-bit little-endian word (a float field's bit pattern) at byte
offset `off`. -/
def rdF (bs : List Nat) (off : Nat) : Nat :=
  bs.getD off 0 + 256 * bs.getD (off + 1) 0 + 65536 * bs.getD (off + 2) 0
    + 16777216 * bs.getD (off + 3) 0

/-- Read a 16-bit little-endian two's-complement short at byte offset
`off`. -/
def rdH (bs : List Nat) (off : Nat) : Int :=
  let v := bs.getD off 0 + 256 * bs.getD (off + 1) 0
  if v < 32768 then (v : Int) else (v : Int) - 65536

/-- `struct.unpack("2f 5h 2f 5f h 5f 3f 3h h 6f", data)` (source line 415–416):
native size and alignment put the 23 floats and 10 shorts at the offsets
below, with pad bytes at 18–19 and 50–51 and a total size of 116 bytes; a
buffer of any other length raises `struct.error`. -/
def structUnpack (bs : List Nat) : Except Err (List WireVal) :=
  if bs.length = 116 then
    .ok [.wF (rdF bs 0), .wF (rdF bs 4),
      .wI (rdH bs 8), .wI (rdH bs 10), .wI (rdH bs 12), .wI (rdH bs 14),
      .wI (rdH bs 16),
      .wF (rdF bs 20), .wF (rdF bs 24),
      .wF (rdF bs 28), .wF (rdF bs 32), .wF (rdF bs 36), .wF (rdF bs 40),
      .wF (rdF bs 44),
      .wI (rdH bs 48),
      .wF (rdF bs 52), .wF (rdF bs 56), .wF (rdF bs 60), .wF (rdF bs 64),
      .wF (rdF bs 68),
      .wF (rdF bs 72), .wF (rdF bs 76), .wF (rdF bs 80),
      .wI (rdH bs 84), .wI (rdH bs 86), .wI (rdH bs 88),
      .wI (rdH bs 90),
      .wF (rdF bs 92), .wF (rdF bs 96), .wF (rdF bs 100), .wF (rdF bs 104),
      .wF (rdF bs 108), .wF (rdF bs 112)]
  else .error .structError

/-- Source line 419: `None if x == -1 or x == -1.0 else x`.  A short equals
`-1` exactly when its value is `-1`; a float compares equal to `-1`/`-1.0`
exactly when its bit pattern is that of `-1.0`. -/
def sentinelize : WireVal → Option WireVal
  | .wI i => if i = -1 then none else some (.wI i)
  | .wF p => if p = patNeg1 then none else some (.wF p)

/-- `SequenceParams` (source 291–398): the 33 optional fields in declaration
order.  Float-valued fields hold IEEE-754 bit patterns. -/
structure SequenceParams where
  FOVx : Option Nat
  FOVy : Option Nat
  Nx : Option Int
  Ny : Option Int
  Nslices : Option Int
  Nechoes : Option Int
  Nphases : Option Int
  slice_thickness : Option Nat
  slice_spacing : Option Nat
  Rplane : Option Nat
  Rplane2 : Option Nat
  Rslice : Option Nat
  PFplane : Option Nat
  PFslice : Option Nat
  ETL : Option Int
  TE : Option Nat
  TE0 : Option Nat
  TR : Option Nat
  Tprep : Option Nat
  Trecovery : Option Nat
  flip : Option Nat
  flip2 : Option Nat
  refoc_flip : Option Nat
  freq_dir : Option Int
  freq_verse : Option Int
  phase_verse : Option Int
  bipolar_echoes : Option Int
  dwell : Option Nat
  raster : Option Nat
  gmax : Option Nat
  smax : Option Nat
  b1_max : Option Nat
  b0_field : Option Nat
  deriving DecidableEq, Repr

/-- Value stored at a float position of the sentinel-filtered tuple:
`struct.unpack` places a float at every float position of the format, so the
fallback branch is unreachable on real unpack output (the Python dataclass
performs no runtime type check of its own). -/
def getFOpt : Option WireVal → Option Nat
  | some (.wF p) => some p
  | _ => none

/-- Value stored at a short position of the sentinel-filtered tuple. -/
def getIOpt : Option WireVal → Option Int
  | some (.wI i) => some i
  | _ => none

/-- `cls(*unpacked)` (source line 421): positional construction of the
dataclass from the 33 sentinel-filtered values; Python raises a `TypeError`
unless exactly 33 positional values are supplied. -/
def SequenceParams.construct (vs : List (Option WireVal)) :
    Option SequenceParams :=
  if vs.length = 33 then
    some {
      FOVx := getFOpt (vs.getD 0 none),
      FOVy := getFOpt (vs.getD 1 none),
      Nx := getIOpt (vs.getD 2 none),
      Ny := getIOpt (vs.getD 3 none),
      Nslices := getIOpt (vs.getD 4 none),
      Nechoes := getIOpt (vs.getD 5 none),
      Nphases := getIOpt (vs.getD 6 none),
      slice_thickness := getFOpt (vs.getD 7 none),
      slice_spacing := getFOpt (vs.getD 8 none),
      Rplane := getFOpt (vs.getD 9 none),
      Rplane2 := getFOpt (vs.getD 10 none),
      Rslice := getFOpt (vs.getD 11 none),
      PFplane := getFOpt (vs.getD 12 none),
      PFslice := getFOpt (vs.getD 13 none),
      ETL := getIOpt (vs.getD 14 none),
      TE := getFOpt (vs.getD 15 none),
      TE0 := getFOpt (vs.getD 16 none),
      TR := getFOpt (vs.getD 17 none),
      Tprep := getFOpt (vs.getD 18 none),
      Trecovery := getFOpt (vs.getD 19 none),
      flip := getFOpt (vs.getD 20 none),
      flip2 := getFOpt (vs.getD 21 none),
      refoc_flip := getFOpt (vs.getD 22 none),
      freq_dir := getIOpt (vs.getD 23 none),
      freq_verse := getIOpt (vs.getD 24 none),
      phase_verse := getIOpt (vs.getD 25 none),
      bipolar_echoes := getIOpt (vs.getD 26 none),
      dwell := getFOpt (vs.getD 27 none),
      raster := getFOpt (vs.getD 28 none),
      gmax := getFOpt (vs.getD 29 none),
      smax := getFOpt (vs.getD 30 none),
      b1_max := getFOpt (vs.getD 31 none),
      b0_field := getFOpt (vs.getD 32 none) }
  else none

/-- `SequenceParams.from_bytes` (source 400-421): unpack the fixed layout,
replace `-1` values by `None`, construct positionally. -/
def SequenceParams.from_bytes (bs : List Nat) : Except Err SequenceParams :=
  match structUnpack bs with
  | .error e => .error e
  | .ok vs =>
      match SequenceParams.construct (vs.map sentinelize) with
      | some p => .ok p
      | none => .error .structError

/-- A value of the field-name-to-value mapping returned by `asdict`. -/
inductive PVal where
  | pI (i : Int)
  | pF (p : Nat)
  deriving DecidableEq, Repr

/-- One float-field entry of the `asdict` mapping: dropped when absent. -/
def entryF (n : String) : Option Nat → List (String × PVal)
  | none => []
  | some p => [(n, PVal.pF p)]

/-- One short-field entry of the `asdict` mapping: dropped when absent. -/
def entryI (n : String) : Option Int → List (String × PVal)
  | none => []
  | some i => [(n, PVal.pI i)]

/-- `SequenceParams.asdict` (source 423–432): the field-name-to-value
mapping in declaration order, excluding `None` values. -/
def SequenceParams.asdict (p : SequenceParams) : List (String × PVal) :=
  entryF ("FOVx") p.FOVx ++ entryF ("FOVy") p.FOVy ++ entryI ("Nx") p.Nx
    ++ entryI ("Ny") p.Ny ++ entryI ("Nslices") p.Nslices
    ++ entryI ("Nechoes") p.Nechoes ++ entryI ("Nphases") p.Nphases
    ++ entryF ("slice_thickness") p.slice_thickness
    ++ entryF ("slice_spacing") p.slice_spacing ++ entryF ("Rplane") p.Rplane
    ++ entryF ("Rplane2") p.Rplane2 ++ entryF ("Rslice") p.Rslice
    ++ entryF ("PFplane") p.PFplane ++ entryF ("PFslice") p.PFslice
    ++ entryI ("ETL") p.ETL ++ entryF ("TE") p.TE ++ entryF ("TE0") p.TE0
    ++ entryF ("TR") p.TR ++ entryF ("Tprep") p.Tprep
    ++ entryF ("Trecovery") p.Trecovery ++ entryF ("flip") p.flip
    ++ entryF ("flip2") p.flip2 ++ entryF ("refoc_flip") p.refoc_flip
    ++ entryI ("freq_dir") p.freq_dir ++ entryI ("freq_verse") p.freq_verse
    ++ entryI ("phase_verse") p.phase_verse
    ++ entryI ("bipolar_echoes") p.bipolar_echoes ++ entryF ("dwell") p.dwell
    ++ entryF ("raster") p.raster ++ entryF ("gmax") p.gmax
    ++ entryF ("smax") p.smax ++ entryF ("b1_max") p.b1_max
    ++ entryF ("b0_field") p.b0_field

/-- Concrete RF event used by witnesses. -/
def rfSample : PulseqRF :=
  { type := 1,
    wav := { n_samples := 1, raster := 1, magnitude := [2], phase := some [0] },
    duration := 1, delay := 0 }

/-- Concrete trapezoidal gradient event used by witnesses. -/
def gradSample : PulseqGrad :=
  { type := 1, delay := 0,
    shape := .trap { amplitude := 1, rise_time := 1, flat_time := 1,
                     fall_time := 1 } }

/-- Concrete ADC event used by witnesses. -/
def adcSample : PulseqADC :=
  { type := 1, num_samples := 8, dwell := 1, delay := 0 }

/-- Concrete trigger event used by witnesses. -/
def trigSample : PulseqTrig :=
  { type := 1, channel := 0, delay := 0, duration := 1 }

/-- Concrete block with all six sub-events populated. -/
def blockFull : PulseqBlock :=
  { ID := 1, duration := 1, rf := some rfSample, gx := some gradSample,
    gy := some gradSample, gz := some gradSample, adc := some adcSample,
    trig := some trigSample }

/-- Concrete block with no RF event. -/
def blockNoRF : PulseqBlock :=
  { ID := 2, duration := 1, rf := none, gx := some gradSample, gy := none,
    gz := none, adc := none, trig := none }

/-- Value of a successful Python `max`: first element folded with `max`. -/
def pyMaxD (l : List ℚ) : ℚ :=
  match l with
  | [] => 0
  | x :: xs => xs.foldl max x

/-- A concrete `_autoseg` implementation used only to instantiate the
universally quantified theorems: one definition covering the whole series,
no splitting, and a match at every row. -/
def trivAutoseg : Autoseg :=
  { find_segment_definitions := fun s => [s],
    split_rotated_segments := fun d => d,
    find_segments := fun series _ => List.range series.length }

/-- A concrete 2×12 loop table: column 1 is the parent-block id, column 9
the per-repetition duration, column 10 the "has ADC" flag, column 11 the
"has rotation" flag. -/
def loopW : List (List ℚ) :=
  [[0, 1, 0, 0, 0, 0, 0, 0, 0, 2, 1, 1],
   [0, 1, 0, 0, 0, 0, 0, 0, 0, 3, 0, 1]]

/-- The compiled structure produced from `loopW` with `trivAutoseg`. -/
def ceqW : Ceq :=
  { n_max := 2, n_parent_blocks := 1, n_segments := 1,
    parent_blocks := [blockFull],
    segments := [Segment.make 0 [1, 1]],
    n_columns_in_loop_array := 10,
    loop := [[0, 1, 0, 0, 0, 0, 0, 0, 0, 2], [0, 1, 0, 0, 0, 0, 0, 0, 0, 3]],
    max_b1 := 2, duration := 5, n_readouts := 1 }

theorem byteLength_append (a b : List WireAtom) :
    byteLength (a ++ b) = byteLength a + byteLength b := by
  simp [byteLength]

theorem byteLength_cons (x : WireAtom) (a : List WireAtom) :
    byteLength (x :: a) = x.len + byteLength a := by
  simp [byteLength]

theorem foldl_append_encode {α : Type} (f : α → List WireAtom) (l : List α)
    (init : List WireAtom) :
    l.foldl (fun acc x => acc ++ f x) init = init ++ (l.map f).flatten := by
  induction l generalizing init with
  | nil => simp
  | cons x xs ih => simp [List.foldl_cons, ih, List.append_assoc]

/-- C1: rendering a `Ceq` object concatenates exactly, in this order: the
repetition count as a 32-bit int, the parent-block count and segment count
as 16-bit ints, each parent block's full encoded record in list order, each
segment's encoded record in list order, the trimmed-table column count as a
16-bit int, the trimmed loop table as flat single-precision floats in
row-major order, peak RF magnitude and total duration as 32-bit floats, and
the ADC repetition count as a 32-bit int. -/
theorem ceq_to_bytes_layout (c : Ceq) :
    c.to_bytes =
      [WireAtom.i32 c.n_max] ++ [WireAtom.i16 c.n_parent_blocks]
        ++ [WireAtom.i16 c.n_segments]
        ++ (c.parent_blocks.map PulseqBlock.to_bytes).flatten
        ++ (c.segments.map Segment.to_bytes).flatten
        ++ [WireAtom.i16 c.n_columns_in_loop_array]
        ++ (c.loop.flatten.map WireAtom.f32)
        ++ [WireAtom.f32 c.max_b1] ++ [WireAtom.f32 c.duration]
        ++ [WireAtom.i32 c.n_readouts] := by
  simp [Ceq.to_bytes, foldl_append_encode, List.append_assoc, List.map_flatten]

theorem block_to_bytes_eq (b : PulseqBlock) :
    b.to_bytes = [WireAtom.i32 b.ID] ++ [WireAtom.f32 b.duration]
      ++ optSection PulseqRF.to_bytes b.rf
      ++ optSection PulseqGrad.to_bytes b.gx
      ++ optSection PulseqGrad.to_bytes b.gy
      ++ optSection PulseqGrad.to_bytes b.gz
      ++ optSection PulseqADC.to_bytes b.adc
      ++ optSection PulseqTrig.to_bytes b.trig := by
  simp [PulseqBlock.to_bytes, List.foldl_cons, List.foldl_nil, List.append_assoc]

theorem two_lt_rf_len (r : PulseqRF) : 2 < byteLength r.to_bytes := by
  rcases r with ⟨t, ⟨n, ra, m, ph⟩, d, dl⟩
  cases ph <;>
    simp [PulseqRF.to_bytes, PulseqShapeArbitrary.to_bytes, byteLength,
      WireAtom.len]

theorem two_lt_grad_len (g : PulseqGrad) : 2 < byteLength g.to_bytes := by
  rcases g with ⟨t, d, sh⟩
  cases sh with
  | trap s =>
      simp [PulseqGrad.to_bytes, GradShape.to_bytes, PulseqShapeTrap.to_bytes,
        byteLength, WireAtom.len]
  | arb s =>
      rcases s with ⟨n, ra, m, ph⟩
      cases ph <;>
        simp [PulseqGrad.to_bytes, GradShape.to_bytes,
          PulseqShapeArbitrary.to_bytes, byteLength, WireAtom.len]

theorem two_lt_adc_len (a : PulseqADC) : 2 < byteLength a.to_bytes := by
  simp [PulseqADC.to_bytes, byteLength, WireAtom.len]

theorem two_lt_trig_len (t : PulseqTrig) : 2 < byteLength t.to_bytes := by
  simp [PulseqTrig.to_bytes, byteLength, WireAtom.len]

/-- C2 counterexample: a `PulseqBlock` with zero sub-events renders to 20
bytes (the id is packed with `struct` code `"i"`, a 32-bit int, source line
200), not the claimed 18 bytes; and removing the ADC sub-event from a fully
populated block shrinks the record by 12 bytes, not by the ADC record's full
14-byte encoded length, because a bare 16-bit zero tag takes its place. -/
theorem block_empty_renders_twenty_not_eighteen :
    (byteLength (PulseqBlock.to_bytes
      { ID := 0, duration := 0, rf := none, gx := none, gy := none,
        gz := none, adc := none, trig := none }) = 20
      ∧ byteLength (PulseqBlock.to_bytes
          { ID := 0, duration := 0, rf := none, gx := none, gy := none,
            gz := none, adc := none, trig := none }) ≠ 18)
    ∧ (byteLength (PulseqBlock.to_bytes blockFull)
          - byteLength (PulseqBlock.to_bytes { blockFull with adc := none })
          = 12
      ∧ byteLength (PulseqADC.to_bytes adcSample) = 14) := by
  constructor <;> constructor <;> decide

/-- C2 (amended): a `PulseqBlock` with zero sub-events renders to exactly
4 (id, int32) + 4 (duration) + 6×2 (six bare zero tags) = 20 bytes; a block
with all six sub-events populated renders to strictly more bytes; and
removing any one sub-event shrinks the rendered record by that sub-event's
own encoded length minus the 2-byte bare zero tag that replaces it. -/
theorem block_record_length_spec (b : PulseqBlock) :
    byteLength (PulseqBlock.to_bytes
      { ID := b.ID, duration := b.duration, rf := none, gx := none,
        gy := none, gz := none, adc := none, trig := none }) = 20
    ∧ (b.rf ≠ none → b.gx ≠ none → b.gy ≠ none → b.gz ≠ none →
        b.adc ≠ none → b.trig ≠ none → 20 < byteLength b.to_bytes)
    ∧ (∀ r, b.rf = some r →
        byteLength b.to_bytes + 2
          = byteLength (PulseqBlock.to_bytes { b with rf := none })
            + byteLength r.to_bytes)
    ∧ (∀ g, b.gx = some g →
        byteLength b.to_bytes + 2
          = byteLength (PulseqBlock.to_bytes { b with gx := none })
            + byteLength g.to_bytes)
    ∧ (∀ g, b.gy = some g →
        byteLength b.to_bytes + 2
          = byteLength (PulseqBlock.to_bytes { b with gy := none })
            + byteLength g.to_bytes)
    ∧ (∀ g, b.gz = some g →
        byteLength b.to_bytes + 2
          = byteLength (PulseqBlock.to_bytes { b with gz := none })
            + byteLength g.to_bytes)
    ∧ (∀ a, b.adc = some a →
        byteLength b.to_bytes + 2
          = byteLength (PulseqBlock.to_bytes { b with adc := none })
            + byteLength a.to_bytes)
    ∧ (∀ t, b.trig = some t →
        byteLength b.to_bytes + 2
          = byteLength (PulseqBlock.to_bytes { b with trig := none })
            + byteLength t.to_bytes) := by
  obtain ⟨i, d, rf, gx, gy, gz, adc, trig⟩ := b
  have hlen : ∀ (orf : Option PulseqRF) (ogx ogy ogz : Option PulseqGrad)
      (oadc : Option PulseqADC) (otrig : Option PulseqTrig),
      byteLength (PulseqBlock.to_bytes
        { ID := i, duration := d, rf := orf, gx := ogx, gy := ogy, gz := ogz,
          adc := oadc, trig := otrig })
        = 8 + byteLength (optSection PulseqRF.to_bytes orf)
            + byteLength (optSection PulseqGrad.to_bytes ogx)
            + byteLength (optSection PulseqGrad.to_bytes ogy)
            + byteLength (optSection PulseqGrad.to_bytes ogz)
            + byteLength (optSection PulseqADC.to_bytes oadc)
            + byteLength (optSection PulseqTrig.to_bytes otrig) := by
    intro orf ogx ogy ogz oadc otrig
    rw [block_to_bytes_eq]
    simp only [byteLength_append]
    simp only [byteLength, List.map, List.sum_cons, List.sum_nil,
      WireAtom.len]
    omega
  have hsec2 : ∀ {α : Type} (enc : α → List WireAtom),
      byteLength (optSection enc none) = 2 := by
    intro α enc; rfl
  have hsecS : ∀ {α : Type} (enc : α → List WireAtom) (e : α),
      byteLength (optSection enc (some e)) = byteLength (enc e) := by
    intro α enc e; rfl
  refine ⟨?_, ?_, ?_, ?_, ?_, ?_, ?_, ?_⟩
  · rw [hlen none none none none none none]
    simp [hsec2]
  · intro h1 h2 h3 h4 h5 h6
    obtain ⟨r, rfl⟩ := Option.ne_none_iff_exists'.mp h1
    obtain ⟨g1, rfl⟩ := Option.ne_none_iff_exists'.mp h2
    obtain ⟨g2, rfl⟩ := Option.ne_none_iff_exists'.mp h3
    obtain ⟨g3, rfl⟩ := Option.ne_none_iff_exists'.mp h4
    obtain ⟨a, rfl⟩ := Option.ne_none_iff_exists'.mp h5
    obtain ⟨t, rfl⟩ := Option.ne_none_iff_exists'.mp h6
    have := two_lt_rf_len r
    have := two_lt_grad_len g1
    have := two_lt_grad_len g2
    have := two_lt_grad_len g3
    have := two_lt_adc_len a
    have := two_lt_trig_len t
    rw [hlen (some r) (some g1) (some g2) (some g3) (some a) (some t)]
    simp only [hsecS]
    omega
  all_goals rintro e rfl
  all_goals rw [hlen, hlen]
  all_goals simp only [hsecS, hsec2]
  all_goals omega

/-- C2 witness: the amended block-length statement evaluated on a fully
populated concrete block. -/
theorem block_record_length_witness :
    20 < byteLength (PulseqBlock.to_bytes blockFull)
    ∧ byteLength (PulseqBlock.to_bytes blockFull) + 2
        = byteLength (PulseqBlock.to_bytes { blockFull with rf := none })
          + byteLength (PulseqRF.to_bytes rfSample) :=
  ⟨(block_record_length_spec blockFull).2.1 (by decide) (by decide)
      (by decide) (by decide) (by decide) (by decide),
   (block_record_length_spec blockFull).2.2.1 rfSample rfl⟩

/-- C5: constructing a trigger event from channel name "osc0", "osc1" or
"ext1" yields wire channel 0, 1, 2 respectively; any other channel name
fails with a `KeyError` naming the unknown channel, rather than silently
defaulting to some value. -/
theorem trig_channel_enum_spec (c : String) (d t : ℚ)
    (h : c ∉ ["osc0", "osc1", "ext1"]) :
    PulseqTrig.from_struct ("osc0") d t
        = .ok { type := 1, channel := 0, delay := d, duration := t }
    ∧ PulseqTrig.from_struct ("osc1") d t
        = .ok { type := 1, channel := 1, delay := d, duration := t }
    ∧ PulseqTrig.from_struct ("ext1") d t
        = .ok { type := 1, channel := 2, delay := d, duration := t }
    ∧ PulseqTrig.from_struct c d t = .error (.keyError c) := by
  have h1 : c ≠ "osc0" := by intro e; exact h (by simp [e])
  have h2 : c ≠ "osc1" := by intro e; exact h (by simp [e])
  have h3 : c ≠ "ext1" := by intro e; exact h (by simp [e])
  have e1 : (c == "osc0") = false := beq_eq_false_iff_ne.mpr h1
  have e2 : (c == "osc1") = false := beq_eq_false_iff_ne.mpr h2
  have e3 : (c == "ext1") = false := beq_eq_false_iff_ne.mpr h3
  refine ⟨rfl, rfl, rfl, ?_⟩
  simp [PulseqTrig.from_struct, CHANNEL_ENUM, List.lookup, e1, e2, e3]

/-- C5 witness: the enum mapping evaluated at the three valid names and the
unknown name "foo". -/
theorem trig_channel_enum_witness :
    PulseqTrig.from_struct ("osc0") 0 1
        = .ok { type := 1, channel := 0, delay := 0, duration := 1 }
    ∧ PulseqTrig.from_struct ("osc1") 0 1
        = .ok { type := 1, channel := 1, delay := 0, duration := 1 }
    ∧ PulseqTrig.from_struct ("ext1") 0 1
        = .ok { type := 1, channel := 2, delay := 0, duration := 1 }
    ∧ PulseqTrig.from_struct ("foo") 0 1 = .error (.keyError ("foo")) :=
  trig_channel_enum_spec ("foo") 0 1 (by decide)

theorem foldl_max_mem (xs : List ℚ) (x : ℚ) :
    xs.foldl max x = x ∨ xs.foldl max x ∈ xs := by
  induction xs generalizing x with
  | nil => left; rfl
  | cons y ys ih =>
      simp only [List.foldl_cons]
      rcases ih (max x y) with h | h
      · rcases le_total x y with hxy | hxy
        · rw [max_eq_right hxy] at h
          rw [max_eq_right hxy, h]
          exact Or.inr (List.mem_cons_self y ys)
        · rw [max_eq_left hxy] at h
          rw [max_eq_left hxy, h]
          exact Or.inl rfl
      · exact Or.inr (List.mem_cons_of_mem y h)

theorem le_foldl_max (xs : List ℚ) (x : ℚ) :
    x ≤ xs.foldl max x ∧ ∀ y ∈ xs, y ≤ xs.foldl max x := by
  induction xs generalizing x with
  | nil => exact ⟨le_refl x, by simp⟩
  | cons y ys ih =>
      obtain ⟨h1, h2⟩ := ih (max x y)
      refine ⟨le_trans (le_max_left x y) h1, ?_⟩
      intro z hz
      rcases List.mem_cons.mp hz with rfl | hz
      · exact le_trans (le_max_right x z) h1
      · exact h2 z hz

theorem pyMax_ok (l : List ℚ) (msg : String) (h : l ≠ []) :
    pyMax l msg = .ok (pyMaxD l) := by
  cases l with
  | nil => exact absurd rfl h
  | cons x xs => rfl

theorem pyMaxD_mem (l : List ℚ) (h : l ≠ []) : pyMaxD l ∈ l := by
  cases l with
  | nil => exact absurd rfl h
  | cons x xs =>
      rcases foldl_max_mem xs x with hm | hm
      · simp [pyMaxD, hm]
      · simp [pyMaxD, List.mem_cons_of_mem x hm]

theorem le_pyMaxD (l : List ℚ) (y : ℚ) (hy : y ∈ l) : y ≤ pyMaxD l := by
  cases l with
  | nil => cases hy
  | cons x xs =>
      rcases List.mem_cons.mp hy with rfl | hy
      · exact (le_foldl_max xs y).1
      · exact (le_foldl_max xs x).2 y hy

theorem mapM_pyMax_ok (rfs : List PulseqRF)
    (h : ∀ r ∈ rfs, r.wav.magnitude ≠ []) :
    (rfs.mapM (fun r => pyMax (r.wav.magnitude.map (fun q => |q|))
        "max() arg is an empty sequence"))
      = .ok (rfs.map (fun r => pyMaxD (r.wav.magnitude.map (fun q => |q|)))) := by
  induction rfs with
  | nil => rfl
  | cons r rs ih =>
      have hr : r.wav.magnitude.map (fun q => |q|) ≠ [] := by
        intro e
        exact h r (List.mem_cons_self r rs) (List.map_eq_nil_iff.mp e)
      rw [List.mapM_cons, pyMax_ok _ _ hr,
        ih (fun r' hr' => h r' (List.mem_cons_of_mem r hr'))]
      rfl

/-- C6 counterexample: on a parent-block list containing no RF events the
code propagates numpy's zero-size-reduction `ValueError` (from
`np.max([])`), which is not a "no RF events present" error. -/
theorem find_b1_max_no_rf_numpy_error :
    find_b1_max [blockNoRF]
        = .error (.valueError
          ("zero-size array to reduction operation maximum which has no identity"))
    ∧ Err.valueError
          ("zero-size array to reduction operation maximum which has no identity")
        ≠ Err.valueError ("no RF events present") := by
  exact ⟨rfl, by decide⟩

/-- C6 (amended): over a parent-block list in which at least one block
carries an RF event (all RF magnitude arrays being non-empty), the computed
peak RF magnitude is the maximum, over all blocks with an RF event, of the
maximum absolute RF magnitude sample, and it is what `Ceq` stores as
`max_b1`; over a list with no RF events the computation raises numpy's
zero-size-reduction `ValueError` (a numeric-library error, not a
"no RF events present" error), and never returns a numeric sentinel. -/
theorem find_b1_max_spec (blocks : List PulseqBlock)
    (hmag : ∀ r ∈ blocks.filterMap (fun b => b.rf), r.wav.magnitude ≠ []) :
    (blocks.filterMap (fun b => b.rf) = [] →
      find_b1_max blocks
        = .error (.valueError
          ("zero-size array to reduction operation maximum which has no identity")))
    ∧ (blocks.filterMap (fun b => b.rf) ≠ [] →
      ∃ m, find_b1_max blocks = .ok m
        ∧ (∀ r ∈ blocks.filterMap (fun b => b.rf),
            ∀ q ∈ r.wav.magnitude, |q| ≤ m)
        ∧ (∃ r ∈ blocks.filterMap (fun b => b.rf),
            ∃ q ∈ r.wav.magnitude, |q| = m)
        ∧ (∀ (A : Autoseg) (loop : List (List ℚ)) (edges : List Nat)
            (c : Ceq), Ceq.build A blocks loop edges = .ok c →
              c.max_b1 = m)) := by
  constructor
  · intro he
    simp only [find_b1_max, he, List.mapM_nil]
    rfl
  · intro hne
    have hmm := mapM_pyMax_ok (blocks.filterMap (fun b => b.rf)) hmag
    have hpne : (blocks.filterMap (fun b => b.rf)).map
        (fun r => pyMaxD (r.wav.magnitude.map (fun q => |q|))) ≠ [] := by
      intro e
      exact hne (List.map_eq_nil_iff.mp e)
    have hok : find_b1_max blocks
        = .ok (pyMaxD ((blocks.filterMap (fun b => b.rf)).map
            (fun r => pyMaxD (r.wav.magnitude.map (fun q => |q|))))) := by
      simp only [find_b1_max, hmm]
      exact pyMax_ok _ _ hpne
    refine ⟨_, hok, ?_, ?_, ?_⟩
    · intro r hr q hq
      have h1 : |q| ≤ pyMaxD (r.wav.magnitude.map (fun q => |q|)) :=
        le_pyMaxD _ _ (List.mem_map_of_mem _ hq)
      have h2 : pyMaxD (r.wav.magnitude.map (fun q => |q|))
          ≤ pyMaxD ((blocks.filterMap (fun b => b.rf)).map
              (fun r => pyMaxD (r.wav.magnitude.map (fun q => |q|)))) :=
        le_pyMaxD _ _ (List.mem_map_of_mem _ hr)
      exact le_trans h1 h2
    · have hm := pyMaxD_mem _ hpne
      obtain ⟨r, hr, hrm⟩ := List.mem_map.mp hm
      have hrne : r.wav.magnitude.map (fun q => |q|) ≠ [] := by
        intro e
        exact hmag r hr (List.map_eq_nil_iff.mp e)
      obtain ⟨q, hq, hqm⟩ := List.mem_map.mp (pyMaxD_mem _ hrne)
      exact ⟨r, hr, q, hq, by rw [hqm, hrm]⟩
    · intro A loop edges c hc
      simp only [Ceq.build, bind, Except.bind, hok] at hc
      cases hc
      rfl

/-- C6 witness: the peak-RF statement evaluated on a concrete block list
with one RF-bearing block. -/
theorem find_b1_max_witness : ∃ m, find_b1_max [blockFull] = .ok m := by
  obtain ⟨m, hm, -, -, -⟩ :=
    (find_b1_max_spec [blockFull] (by decide)).2 (by decide)
  exact ⟨m, hm⟩

/-- C7: for every compiled loop table whose trimmed column 9 sums to `D` and
whose compiled segment-id column (column 0) has exactly `k` adjacent-row
transitions, the stored total duration is `D + k * 116e-6` seconds. -/
theorem ceq_duration_ringdown (A : Autoseg) (blocks : List PulseqBlock)
    (loop : List (List ℚ)) (edges : List Nat) (c : Ceq) (D : ℚ) (k : Nat)
    (hw : ∀ r ∈ loop, 12 ≤ r.length)
    (hc : Ceq.build A blocks loop edges = .ok c)
    (hD : (colAt c.loop 9).sum = D)
    (hk : countBoundaries (colAt c.loop 0) = k) :
    c.duration = D + (k : ℚ) * (116 / 1000000) := by
  cases hfb : find_b1_max blocks with
  | error e =>
      simp only [Ceq.build, bind, Except.bind, hfb] at hc
      exact Except.noConfusion hc
  | ok m =>
      have hdur : c.duration = calc_duration (colAt c.loop 0) (colAt c.loop 9) := by
        simp only [Ceq.build, bind, Except.bind, hfb] at hc
        cases hc
        rfl
      rw [hdur, calc_duration, SEGMENT_RINGDOWN_TIME, hD, hk]
      ring

/-- C8: the series handed to the segment auto-detection calls is, row by
row, the (integer-truncated) parent-block-id column times the
(integer-truncated) "has rotation" flag column, so a row whose rotation
flag is zero contributes block id 0. -/
theorem masked_parent_block_id_spec (loop : List (List ℚ)) (i : Nat)
    (h : i < loop.length) :
    (maskedParentBlockId loop).getD i 0
        = pyInt ((loop.getD i []).getD 1 0)
          * pyInt ((loop.getD i []).getD ((loop.getD i []).length - 1) 0)
    ∧ (pyInt ((loop.getD i []).getD ((loop.getD i []).length - 1) 0) = 0 →
        (maskedParentBlockId loop).getD i 0 = 0) := by
  have hlen : i < (maskedParentBlockId loop).length := by
    simp [maskedParentBlockId, colAt, lastCol, h]
  have h1 : (maskedParentBlockId loop).getD i 0
      = pyInt ((loop.getD i []).getD 1 0)
        * pyInt ((loop.getD i []).getD ((loop.getD i []).length - 1) 0) := by
    rw [List.getD_eq_getElem _ _ hlen]
    unfold maskedParentBlockId colAt lastCol
    simp only [List.getElem_zipWith, List.getElem_map]
    rw [List.getD_eq_getElem _ _ h]
  exact ⟨h1, fun hz => by rw [h1, hz, mul_zero]⟩

theorem getD_set_ne (l : List ℚ) (a j : Nat) (v : ℚ) (h : a ≠ j) :
    (l.set a v).getD j 0 = l.getD j 0 := by
  simp [List.getD_eq_getElem?_getD, List.getElem?_set_ne h]

theorem getD_set_same_zero (l : List ℚ) (a : Nat) :
    (l.set a (0 : ℚ)).getD a 0 = 0 := by
  rw [List.getD_eq_getElem?_getD, List.getElem?_set_self']
  cases h : l[a]? <;> rfl

theorem writeIdx_length (js : List Nat) (col : List ℚ) (v : ℚ) :
    (js.foldl (fun c j => c.set j v) col).length = col.length := by
  induction js generalizing col with
  | nil => rfl
  | cons j js ih => simp only [List.foldl_cons, ih, List.length_set]

theorem scatter_length (A : Autoseg) (series : List Int)
    (defs : List (List Int)) :
    (scatterSegIds A series defs).length = series.length := by
  unfold scatterSegIds
  have aux : ∀ (ns : List Nat) (col : List ℚ),
      ((ns.foldl (fun col n =>
          (A.find_segments series (defs.getD n [])).foldl
            (fun c i => c.set i (n : ℚ)) col) col)).length = col.length := by
    intro ns
    induction ns with
    | nil => intro col; rfl
    | cons n ns ih =>
        intro col
        simp only [List.foldl_cons]
        rw [ih, writeIdx_length]
  rw [aux, List.length_replicate]

theorem masked_length (loop : List (List ℚ)) :
    (maskedParentBlockId loop).length = loop.length := by
  simp [maskedParentBlockId, colAt, lastCol]

/-- C9: the only write `_build_segments` performs on the loop table is to
its segment-id column: every entry outside column 0 is unchanged, and the
table stored in the `Ceq` is exactly the written table with the two
trailing analysis columns stripped (so the caller-supplied data is
otherwise taken over unmodified). -/
theorem ceq_loop_frame (A : Autoseg) (blocks : List PulseqBlock)
    (loop : List (List ℚ)) (edges : List Nat) (c : Ceq) (i j : Nat)
    (hc : Ceq.build A blocks loop edges = .ok c)
    (hj : j ≠ 0) :
    ((build_segments A loop edges).2.getD i []).getD j 0
        = (loop.getD i []).getD j 0
    ∧ c.loop = (build_segments A loop edges).2.map
        (fun r => r.take (r.length - 2)) := by
  constructor
  · have hbs : (build_segments A loop edges).2
        = List.zipWith (fun r v => r.set 0 v) loop
            (scatterSegIds A (maskedParentBlockId loop)
              (segDefsFromSeries A (maskedParentBlockId loop) edges)) := rfl
    rw [hbs]
    rcases lt_or_ge i loop.length with hi | hi
    · have hi2 : i < (List.zipWith (fun r v => r.set 0 v) loop
          (scatterSegIds A (maskedParentBlockId loop)
            (segDefsFromSeries A (maskedParentBlockId loop) edges))).length := by
        simp only [List.length_zipWith, scatter_length, masked_length]
        omega
      rw [List.getD_eq_getElem _ _ hi2]
      simp only [List.getElem_zipWith]
      rw [List.getD_eq_getElem _ _ hi]
      exact getD_set_ne _ _ _ _ (fun e => hj e.symm)
    · have hz : (List.zipWith (fun r v => r.set 0 v) loop
          (scatterSegIds A (maskedParentBlockId loop)
            (segDefsFromSeries A (maskedParentBlockId loop) edges))).getD i []
          = [] := by
        apply List.getD_eq_default
        simp only [List.length_zipWith, scatter_length, masked_length]
        omega
      have hz2 : loop.getD i [] = [] := List.getD_eq_default _ _ hi
      rw [hz, hz2]
  · cases hfb : find_b1_max blocks with
    | error e =>
        simp only [Ceq.build, bind, Except.bind, hfb] at hc
        exact Except.noConfusion hc
    | ok m =>
        simp only [Ceq.build, bind, Except.bind, hfb] at hc
        cases hc
        rfl

theorem writeIdx_preserve (js : List Nat) (col : List ℚ) (v : ℚ) (i : Nat)
    (h : i ∉ js) :
    (js.foldl (fun c j => c.set j v) col).getD i 0 = col.getD i 0 := by
  induction js generalizing col with
  | nil => rfl
  | cons j js ih =>
      simp only [List.foldl_cons]
      rw [ih _ (fun hm => h (List.mem_cons_of_mem j hm))]
      exact getD_set_ne _ _ _ _ (fun e => h (e ▸ List.mem_cons_self j js))

theorem writeIdx_zero (js : List Nat) (col : List ℚ) (v : ℚ) (i : Nat)
    (hv : v = 0) (h : col.getD i 0 = 0) :
    (js.foldl (fun c j => c.set j v) col).getD i 0 = 0 := by
  subst hv
  induction js generalizing col with
  | nil => exact h
  | cons j js ih =>
      simp only [List.foldl_cons]
      apply ih
      rcases eq_or_ne j i with rfl | hne
      · exact getD_set_same_zero col j
      · rw [getD_set_ne _ _ _ _ hne]
        exact h

theorem scatter_zero_of_unmatched (A : Autoseg) (series : List Int)
    (defs : List (List Int)) (i : Nat)
    (h : ∀ n, 1 ≤ n → n < defs.length →
      i ∉ A.find_segments series (defs.getD n [])) :
    (scatterSegIds A series defs).getD i 0 = 0 := by
  unfold scatterSegIds
  have aux : ∀ (ns : List Nat) (col : List ℚ),
      (∀ n ∈ ns, n < defs.length) → col.getD i 0 = 0 →
      ((ns.foldl (fun col n =>
          (A.find_segments series (defs.getD n [])).foldl
            (fun c i => c.set i (n : ℚ)) col) col)).getD i 0 = 0 := by
    intro ns
    induction ns with
    | nil => intro col _ h0; exact h0
    | cons n ns ih =>
        intro col hns h0
        simp only [List.foldl_cons]
        apply ih _ (fun m hm => hns m (List.mem_cons_of_mem n hm))
        by_cases hn : n = 0
        · subst hn
          exact writeIdx_zero _ _ _ _ (by norm_num) h0
        · rw [writeIdx_preserve _ _ _ _
            (h n (Nat.one_le_iff_ne_zero.mpr hn)
              (hns n (List.mem_cons_self n ns)))]
          exact h0
  apply aux
  · intro n hn
    exact List.mem_range.mp hn
  · simp only [List.getD_eq_getElem?_getD, List.getElem?_replicate]
    split <;> rfl

/-- C10: the segment-id column starts as all zeros and is only overwritten
at the index sets returned by the per-definition `find_segments` calls, so
a row matched by no definition of index ≥ 1 — whether it is matched by
definition 0 or by nothing at all — ends compilation with segment id 0,
making unmatched rows indistinguishable from rows genuinely assigned to the
first (zero-indexed) segment. -/
theorem unmatched_rows_segment_zero (A : Autoseg) (loop : List (List ℚ))
    (edges : List Nat) (i : Nat)
    (h : ∀ n, 1 ≤ n →
      n < (segDefsFromSeries A (maskedParentBlockId loop) edges).length →
      i ∉ A.find_segments (maskedParentBlockId loop)
          ((segDefsFromSeries A (maskedParentBlockId loop) edges).getD n [])) :
    (scatterSegIds A (maskedParentBlockId loop)
        (segDefsFromSeries A (maskedParentBlockId loop) edges)).getD i 0 = 0
    ∧ ((build_segments A loop edges).2.getD i []).getD 0 0 = 0 := by
  have h0 := scatter_zero_of_unmatched A (maskedParentBlockId loop)
    (segDefsFromSeries A (maskedParentBlockId loop) edges) i h
  refine ⟨h0, ?_⟩
  have hbs : (build_segments A loop edges).2
      = List.zipWith (fun r v => r.set 0 v) loop
          (scatterSegIds A (maskedParentBlockId loop)
            (segDefsFromSeries A (maskedParentBlockId loop) edges)) := rfl
  rw [hbs]
  rcases lt_or_ge i loop.length with hi | hi
  · have hi2 : i < (List.zipWith (fun r v => r.set 0 v) loop
        (scatterSegIds A (maskedParentBlockId loop)
          (segDefsFromSeries A (maskedParentBlockId loop) edges))).length := by
      simp only [List.length_zipWith, scatter_length, masked_length]
      omega
    have hsl : i < (scatterSegIds A (maskedParentBlockId loop)
        (segDefsFromSeries A (maskedParentBlockId loop) edges)).length := by
      rw [scatter_length, masked_length]
      exact hi
    rw [List.getD_eq_getElem _ _ hi2]
    simp only [List.getElem_zipWith]
    have he : (scatterSegIds A (maskedParentBlockId loop)
        (segDefsFromSeries A (maskedParentBlockId loop) edges)).get ⟨i, hsl⟩
        = 0 := by
      rw [List.get_eq_getElem, ← List.getD_eq_getElem _ 0 hsl]
      exact h0
    rw [List.get_eq_getElem] at he
    rw [he]
    exact getD_set_same_zero _ 0
  · have hz : (List.zipWith (fun r v => r.set 0 v) loop
        (scatterSegIds A (maskedParentBlockId loop)
          (segDefsFromSeries A (maskedParentBlockId loop) edges))).getD i []
        = [] := by
      apply List.getD_eq_default
      simp only [List.length_zipWith, scatter_length, masked_length]
      omega
    rw [hz]
    rfl

/-- Evaluation of the compiled structure on the concrete witness inputs. -/
theorem ceq_build_loopW :
    Ceq.build trivAutoseg [blockFull] loopW [] = .ok ceqW := by
  simp only [Ceq.build, build_segments, maskedParentBlockId, colAt, lastCol,
    penultCol, segDefsFromSeries, scatterSegIds, pySlice, find_b1_max, pyMax,
    pyMaxD, calc_duration, countBoundaries, SEGMENT_RINGDOWN_TIME, pyInt,
    trivAutoseg, loopW, ceqW, blockFull, rfSample, Segment.make, bind,
    Except.bind]
  simp [List.mapM.loop, List.range_succ, List.filterMap_cons,
    List.filterMap_nil]
  norm_num
  rfl

/-- C7 witness: the ring-down statement evaluated on the concrete table
`loopW` (durations 2 and 3, a single segment, zero boundaries). -/
theorem ceq_duration_ringdown_witness :
    Ceq.build trivAutoseg [blockFull] loopW [] = .ok ceqW
    ∧ ceqW.duration = 5 + ((0 : Nat) : ℚ) * (116 / 1000000) := by
  refine ⟨ceq_build_loopW, ceq_duration_ringdown trivAutoseg [blockFull]
    loopW [] ceqW 5 0 (by decide) ceq_build_loopW ?_ ?_⟩
  · show (colAt ceqW.loop 9).sum = 5
    simp [colAt, ceqW]
    norm_num
  · show countBoundaries (colAt ceqW.loop 0) = 0
    simp [countBoundaries, colAt, ceqW]

/-- C8 witness: the masked-series statement evaluated at row 0 of `loopW`. -/
theorem masked_parent_block_id_witness :
    (maskedParentBlockId loopW).getD 0 0
        = pyInt ((loopW.getD 0 []).getD 1 0)
          * pyInt ((loopW.getD 0 []).getD ((loopW.getD 0 []).length - 1) 0) :=
  (masked_parent_block_id_spec loopW 0 (by decide)).1

/-- C9 witness: the frame statement evaluated at row 0, column 1 of
`loopW`. -/
theorem ceq_loop_frame_witness :
    ((build_segments trivAutoseg loopW []).2.getD 0 []).getD 1 0
        = (loopW.getD 0 []).getD 1 0
    ∧ ceqW.loop = (build_segments trivAutoseg loopW []).2.map
        (fun r => r.take (r.length - 2)) :=
  ceq_loop_frame trivAutoseg [blockFull] loopW [] ceqW 0 1 ceq_build_loopW
    (by decide)

/-- C10 witness: the default-segment-id statement evaluated at row 0 of
`loopW`, where the single discovered definition leaves no definition of
index ≥ 1. -/
theorem unmatched_rows_segment_zero_witness :
    (scatterSegIds trivAutoseg (maskedParentBlockId loopW)
        (segDefsFromSeries trivAutoseg (maskedParentBlockId loopW) [])).getD 0 0
        = 0
    ∧ ((build_segments trivAutoseg loopW []).2.getD 0 []).getD 0 0 = 0 :=
  unmatched_rows_segment_zero trivAutoseg loopW [] 0
    (fun n h1 h2 => absurd (h1.trans_lt h2) (by decide))

theorem getFOpt_sentinelize_wF (p : Nat) :
    getFOpt (sentinelize (.wF p)) = if p = patNeg1 then none else some p := by
  by_cases hp : p = patNeg1 <;> simp [sentinelize, getFOpt, hp]

theorem getIOpt_sentinelize_wI (i : Int) :
    getIOpt (sentinelize (.wI i)) = if i = -1 then none else some i := by
  by_cases hi : i = -1 <;> simp [sentinelize, getIOpt, hi]

theorem entryF_ite (n : String) (c : Prop) [Decidable c] (v : Nat) :
    entryF n (if c then none else some v)
      = (if c then ([] : List (String × PVal)) else [(n, PVal.pF v)]) := by
  split <;> rfl

theorem entryI_ite (n : String) (c : Prop) [Decidable c] (v : Int) :
    entryI n (if c then none else some v)
      = (if c then ([] : List (String × PVal)) else [(n, PVal.pI v)]) := by
  split <;> rfl

/-- C3: decoding a well-sized buffer succeeds, every one of the 33 fields is
absent exactly when its raw wire value is `-1` (`-1.0`, pattern `patNeg1`,
for the float fields) and carries the raw wire value itself otherwise, and
`asdict` returns exactly the present fields with their decoded values, in
declaration order. -/
theorem seqparams_sentinel_decode (bs : List Nat) (h : bs.length = 116) :
    ∃ p, SequenceParams.from_bytes bs = .ok p
      ∧ p.FOVx = (if rdF bs 0 = patNeg1 then none else some (rdF bs 0))
      ∧ p.FOVy = (if rdF bs 4 = patNeg1 then none else some (rdF bs 4))
      ∧ p.Nx = (if rdH bs 8 = -1 then none else some (rdH bs 8))
      ∧ p.Ny = (if rdH bs 10 = -1 then none else some (rdH bs 10))
      ∧ p.Nslices = (if rdH bs 12 = -1 then none else some (rdH bs 12))
      ∧ p.Nechoes = (if rdH bs 14 = -1 then none else some (rdH bs 14))
      ∧ p.Nphases = (if rdH bs 16 = -1 then none else some (rdH bs 16))
      ∧ p.slice_thickness = (if rdF bs 20 = patNeg1 then none else some (rdF bs 20))
      ∧ p.slice_spacing = (if rdF bs 24 = patNeg1 then none else some (rdF bs 24))
      ∧ p.Rplane = (if rdF bs 28 = patNeg1 then none else some (rdF bs 28))
      ∧ p.Rplane2 = (if rdF bs 32 = patNeg1 then none else some (rdF bs 32))
      ∧ p.Rslice = (if rdF bs 36 = patNeg1 then none else some (rdF bs 36))
      ∧ p.PFplane = (if rdF bs 40 = patNeg1 then none else some (rdF bs 40))
      ∧ p.PFslice = (if rdF bs 44 = patNeg1 then none else some (rdF bs 44))
      ∧ p.ETL = (if rdH bs 48 = -1 then none else some (rdH bs 48))
      ∧ p.TE = (if rdF bs 52 = patNeg1 then none else some (rdF bs 52))
      ∧ p.TE0 = (if rdF bs 56 = patNeg1 then none else some (rdF bs 56))
      ∧ p.TR = (if rdF bs 60 = patNeg1 then none else some (rdF bs 60))
      ∧ p.Tprep = (if rdF bs 64 = patNeg1 then none else some (rdF bs 64))
      ∧ p.Trecovery = (if rdF bs 68 = patNeg1 then none else some (rdF bs 68))
      ∧ p.flip = (if rdF bs 72 = patNeg1 then none else some (rdF bs 72))
      ∧ p.flip2 = (if rdF bs 76 = patNeg1 then none else some (rdF bs 76))
      ∧ p.refoc_flip = (if rdF bs 80 = patNeg1 then none else some (rdF bs 80))
      ∧ p.freq_dir = (if rdH bs 84 = -1 then none else some (rdH bs 84))
      ∧ p.freq_verse = (if rdH bs 86 = -1 then none else some (rdH bs 86))
      ∧ p.phase_verse = (if rdH bs 88 = -1 then none else some (rdH bs 88))
      ∧ p.bipolar_echoes = (if rdH bs 90 = -1 then none else some (rdH bs 90))
      ∧ p.dwell = (if rdF bs 92 = patNeg1 then none else some (rdF bs 92))
      ∧ p.raster = (if rdF bs 96 = patNeg1 then none else some (rdF bs 96))
      ∧ p.gmax = (if rdF bs 100 = patNeg1 then none else some (rdF bs 100))
      ∧ p.smax = (if rdF bs 104 = patNeg1 then none else some (rdF bs 104))
      ∧ p.b1_max = (if rdF bs 108 = patNeg1 then none else some (rdF bs 108))
      ∧ p.b0_field = (if rdF bs 112 = patNeg1 then none else some (rdF bs 112))
      ∧ p.asdict
          = (if rdF bs 0 = patNeg1 then ([] : List (String × PVal)) else [("FOVx", PVal.pF (rdF bs 0))])
            ++ (if rdF bs 4 = patNeg1 then ([] : List (String × PVal)) else [("FOVy", PVal.pF (rdF bs 4))])
            ++ (if rdH bs 8 = -1 then ([] : List (String × PVal)) else [("Nx", PVal.pI (rdH bs 8))])
            ++ (if rdH bs 10 = -1 then ([] : List (String × PVal)) else [("Ny", PVal.pI (rdH bs 10))])
            ++ (if rdH bs 12 = -1 then ([] : List (String × PVal)) else [("Nslices", PVal.pI (rdH bs 12))])
            ++ (if rdH bs 14 = -1 then ([] : List (String × PVal)) else [("Nechoes", PVal.pI (rdH bs 14))])
            ++ (if rdH bs 16 = -1 then ([] : List (String × PVal)) else [("Nphases", PVal.pI (rdH bs 16))])
            ++ (if rdF bs 20 = patNeg1 then ([] : List (String × PVal)) else [("slice_thickness", PVal.pF (rdF bs 20))])
            ++ (if rdF bs 24 = patNeg1 then ([] : List (String × PVal)) else [("slice_spacing", PVal.pF (rdF bs 24))])
            ++ (if rdF bs 28 = patNeg1 then ([] : List (String × PVal)) else [("Rplane", PVal.pF (rdF bs 28))])
            ++ (if rdF bs 32 = patNeg1 then ([] : List (String × PVal)) else [("Rplane2", PVal.pF (rdF bs 32))])
            ++ (if rdF bs 36 = patNeg1 then ([] : List (String × PVal)) else [("Rslice", PVal.pF (rdF bs 36))])
            ++ (if rdF bs 40 = patNeg1 then ([] : List (String × PVal)) else [("PFplane", PVal.pF (rdF bs 40))])
            ++ (if rdF bs 44 = patNeg1 then ([] : List (String × PVal)) else [("PFslice", PVal.pF (rdF bs 44))])
            ++ (if rdH bs 48 = -1 then ([] : List (String × PVal)) else [("ETL", PVal.pI (rdH bs 48))])
            ++ (if rdF bs 52 = patNeg1 then ([] : List (String × PVal)) else [("TE", PVal.pF (rdF bs 52))])
            ++ (if rdF bs 56 = patNeg1 then ([] : List (String × PVal)) else [("TE0", PVal.pF (rdF bs 56))])
            ++ (if rdF bs 60 = patNeg1 then ([] : List (String × PVal)) else [("TR", PVal.pF (rdF bs 60))])
            ++ (if rdF bs 64 = patNeg1 then ([] : List (String × PVal)) else [("Tprep", PVal.pF (rdF bs 64))])
            ++ (if rdF bs 68 = patNeg1 then ([] : List (String × PVal)) else [("Trecovery", PVal.pF (rdF bs 68))])
            ++ (if rdF bs 72 = patNeg1 then ([] : List (String × PVal)) else [("flip", PVal.pF (rdF bs 72))])
            ++ (if rdF bs 76 = patNeg1 then ([] : List (String × PVal)) else [("flip2", PVal.pF (rdF bs 76))])
            ++ (if rdF bs 80 = patNeg1 then ([] : List (String × PVal)) else [("refoc_flip", PVal.pF (rdF bs 80))])
            ++ (if rdH bs 84 = -1 then ([] : List (String × PVal)) else [("freq_dir", PVal.pI (rdH bs 84))])
            ++ (if rdH bs 86 = -1 then ([] : List (String × PVal)) else [("freq_verse", PVal.pI (rdH bs 86))])
            ++ (if rdH bs 88 = -1 then ([] : List (String × PVal)) else [("phase_verse", PVal.pI (rdH bs 88))])
            ++ (if rdH bs 90 = -1 then ([] : List (String × PVal)) else [("bipolar_echoes", PVal.pI (rdH bs 90))])
            ++ (if rdF bs 92 = patNeg1 then ([] : List (String × PVal)) else [("dwell", PVal.pF (rdF bs 92))])
            ++ (if rdF bs 96 = patNeg1 then ([] : List (String × PVal)) else [("raster", PVal.pF (rdF bs 96))])
            ++ (if rdF bs 100 = patNeg1 then ([] : List (String × PVal)) else [("gmax", PVal.pF (rdF bs 100))])
            ++ (if rdF bs 104 = patNeg1 then ([] : List (String × PVal)) else [("smax", PVal.pF (rdF bs 104))])
            ++ (if rdF bs 108 = patNeg1 then ([] : List (String × PVal)) else [("b1_max", PVal.pF (rdF bs 108))])
            ++ (if rdF bs 112 = patNeg1 then ([] : List (String × PVal)) else [("b0_field", PVal.pF (rdF bs 112))]) := by
  have hu : structUnpack bs
      = .ok [.wF (rdF bs 0), .wF (rdF bs 4), .wI (rdH bs 8), .wI (rdH bs 10), .wI (rdH bs 12), .wI (rdH bs 14), .wI (rdH bs 16), .wF (rdF bs 20), .wF (rdF bs 24), .wF (rdF bs 28), .wF (rdF bs 32), .wF (rdF bs 36), .wF (rdF bs 40), .wF (rdF bs 44), .wI (rdH bs 48), .wF (rdF bs 52), .wF (rdF bs 56), .wF (rdF bs 60), .wF (rdF bs 64), .wF (rdF bs 68), .wF (rdF bs 72), .wF (rdF bs 76), .wF (rdF bs 80), .wI (rdH bs 84), .wI (rdH bs 86), .wI (rdH bs 88), .wI (rdH bs 90), .wF (rdF bs 92), .wF (rdF bs 96), .wF (rdF bs 100), .wF (rdF bs 104), .wF (rdF bs 108), .wF (rdF bs 112)] := by
    rw [structUnpack, if_pos h]
  have hcon : SequenceParams.from_bytes bs
      = .ok {
        FOVx := (if rdF bs 0 = patNeg1 then none else some (rdF bs 0)),
        FOVy := (if rdF bs 4 = patNeg1 then none else some (rdF bs 4)),
        Nx := (if rdH bs 8 = -1 then none else some (rdH bs 8)),
        Ny := (if rdH bs 10 = -1 then none else some (rdH bs 10)),
        Nslices := (if rdH bs 12 = -1 then none else some (rdH bs 12)),
        Nechoes := (if rdH bs 14 = -1 then none else some (rdH bs 14)),
        Nphases := (if rdH bs 16 = -1 then none else some (rdH bs 16)),
        slice_thickness := (if rdF bs 20 = patNeg1 then none else some (rdF bs 20)),
        slice_spacing := (if rdF bs 24 = patNeg1 then none else some (rdF bs 24)),
        Rplane := (if rdF bs 28 = patNeg1 then none else some (rdF bs 28)),
        Rplane2 := (if rdF bs 32 = patNeg1 then none else some (rdF bs 32)),
        Rslice := (if rdF bs 36 = patNeg1 then none else some (rdF bs 36)),
        PFplane := (if rdF bs 40 = patNeg1 then none else some (rdF bs 40)),
        PFslice := (if rdF bs 44 = patNeg1 then none else some (rdF bs 44)),
        ETL := (if rdH bs 48 = -1 then none else some (rdH bs 48)),
        TE := (if rdF bs 52 = patNeg1 then none else some (rdF bs 52)),
        TE0 := (if rdF bs 56 = patNeg1 then none else some (rdF bs 56)),
        TR := (if rdF bs 60 = patNeg1 then none else some (rdF bs 60)),
        Tprep := (if rdF bs 64 = patNeg1 then none else some (rdF bs 64)),
        Trecovery := (if rdF bs 68 = patNeg1 then none else some (rdF bs 68)),
        flip := (if rdF bs 72 = patNeg1 then none else some (rdF bs 72)),
        flip2 := (if rdF bs 76 = patNeg1 then none else some (rdF bs 76)),
        refoc_flip := (if rdF bs 80 = patNeg1 then none else some (rdF bs 80)),
        freq_dir := (if rdH bs 84 = -1 then none else some (rdH bs 84)),
        freq_verse := (if rdH bs 86 = -1 then none else some (rdH bs 86)),
        phase_verse := (if rdH bs 88 = -1 then none else some (rdH bs 88)),
        bipolar_echoes := (if rdH bs 90 = -1 then none else some (rdH bs 90)),
        dwell := (if rdF bs 92 = patNeg1 then none else some (rdF bs 92)),
        raster := (if rdF bs 96 = patNeg1 then none else some (rdF bs 96)),
        gmax := (if rdF bs 100 = patNeg1 then none else some (rdF bs 100)),
        smax := (if rdF bs 104 = patNeg1 then none else some (rdF bs 104)),
        b1_max := (if rdF bs 108 = patNeg1 then none else some (rdF bs 108)),
        b0_field := (if rdF bs 112 = patNeg1 then none else some (rdF bs 112)) } := by
    simp only [SequenceParams.from_bytes, hu]
    simp only [List.map_cons, List.map_nil, SequenceParams.construct,
      List.length_cons, List.length_nil]
    norm_num
    simp only [List.getD_cons_zero, List.getD_cons_succ,
      getFOpt_sentinelize_wF, getIOpt_sentinelize_wI, and_self, true_and,
      and_true]
    try trivial
  refine ⟨_, hcon, rfl, rfl, rfl, rfl, rfl, rfl, rfl, rfl, rfl, rfl, rfl, rfl, rfl, rfl, rfl, rfl, rfl, rfl, rfl, rfl, rfl, rfl, rfl, rfl, rfl, rfl, rfl, rfl, rfl, rfl, rfl, rfl, rfl, ?_⟩
  simp only [SequenceParams.asdict, entryF_ite, entryI_ite]

/-- C3 witness: decoding an all-zero 116-byte buffer succeeds. -/
theorem seqparams_sentinel_decode_witness :
    ∃ p, SequenceParams.from_bytes (List.replicate 116 0) = .ok p := by
  obtain ⟨p, hp, -⟩ :=
    seqparams_sentinel_decode (List.replicate 116 0) (by decide)
  exact ⟨p, hp⟩

/-- C4: decoding a buffer whose length is not the fixed layout size (116
bytes) fails with the structural-mismatch error rather than returning a
record. -/
theorem seqparams_wrong_length_errors (bs : List Nat) (h : bs.length ≠ 116) :
    SequenceParams.from_bytes bs = .error .structError := by
  simp [SequenceParams.from_bytes, structUnpack, h]

/-- C4 witness: decoding the empty buffer fails structurally. -/
theorem seqparams_wrong_length_witness :
    ([] : List Nat).length ≠ 116
    ∧ SequenceParams.from_bytes [] = .error .structError :=
  ⟨by decide, seqparams_wrong_length_errors [] (by decide)⟩
